import Mathlib

/-!
# Card-input validation: shallow embedding of `src/app.py`

Python strings are modelled as Lean `String` (a sequence of Unicode code
points, matching the Python `str` type; `len` is the code-point count in
both).  The character-class predicates `str.isdigit` / `str.isalpha` are
modelled by their ASCII meaning (`Char.isDigit` / `Char.isAlpha`), which is
exact on ASCII input — the character scope the spec states (section 4.5: "no
Unicode letter support required beyond basic alphabetic characters").  A
second, extended model of `validate_expiry` additionally tracks the one
place where full CPython Unicode semantics diverges from this ASCII model:
`str.isdigit` accepts characters of Unicode `Numeric_Type=Digit` (for
example U+00B2 SUPERSCRIPT TWO) that `int()` rejects with a `ValueError`.

The ambient clock used by `validate_expiry` (`datetime.now()`, of which only
`.year` and `.month` are read) is passed as explicit `now_year`/`now_month`
parameters, as section 9 of the spec prescribes for testability.
-/

namespace CardValidation

/-- Value of an ASCII digit character (code point minus 48). -/
def py_digit_val (c : Char) : Nat := c.toNat - 48

/-- Python `int(s)` for a string of ASCII decimal digits: base-10 value. -/
def py_int (s : List Char) : Nat := s.foldl (fun a c => 10 * a + py_digit_val c) 0

/-- Python `s.isdigit()` on ASCII input: `s` is non-empty and every
character is a decimal digit. -/
def py_isdigit (s : List Char) : Bool := !s.isEmpty && s.all Char.isDigit

/-- Python `n.startswith(p)`. -/
def py_startswith (n : String) (p : String) : Bool := p.data.isPrefixOf n.data

/-! ## 1. DFA validation (`dfa_validate_card_number`, app.py lines 12–40)

The source builds an `automata.fa.dfa.DFA` with states `{0,…,19} ∪ {-1}`,
alphabet `{'0',…,'9'}`, transitions `δ(q,d) = q+1` for `q < 19` else `-1`
(with `-1` absorbing), initial state `0` and final states `{13,…,19}`, then
calls `accepts_input`.  `accepts_input` rejects (returns `False`, via a
caught `RejectionException`) as soon as a symbol outside the alphabet is
read; we model that with an `Option` state, `none` standing for the
rejection on a foreign symbol. -/

/-- The DFA input alphabet, `set('0123456789')`. -/
def dfa_alphabet : List Char := ['0', '1', '2', '3', '4', '5', '6', '7', '8', '9']

/-- The transition table built by the two loops in `dfa_validate_card_number`:
every digit moves state `q ∈ {0,…,18}` to `q+1`, and states `19` and `-1`
to the dead state `-1` (the digit read does not matter). -/
def dfa_trans (q : Int) : Int := if 0 ≤ q ∧ q < 19 then q + 1 else -1

/-- The DFA final states `{13, 14, 15, 16, 17, 18, 19}`. -/
def dfa_finals : List Int := [13, 14, 15, 16, 17, 18, 19]

/-- Run the DFA from state `q`; `none` models the `RejectionException`
raised on a symbol outside the input alphabet. -/
def dfa_run : Int → List Char → Option Int
  | q, [] => some q
  | q, c :: cs => if dfa_alphabet.contains c then dfa_run (dfa_trans q) cs else none

/-- `dfa_validate_card_number(number)`: run the DFA on the input and accept
iff it ends in a final state (a foreign symbol rejects). -/
def dfa_validate_card_number (number : String) : Bool :=
  match dfa_run 0 number.data with
  | some q => dfa_finals.contains q
  | none => false

/-! ## 2. Issuer detection (`detect_card_issuer`, app.py lines 45–58) -/

/-- `detect_card_issuer(number)`: first-match prefix/length rules, in the
order of the source: Visa, MasterCard, American Express, Discover, else
Unknown. -/
def detect_card_issuer (number : String) : String :=
  let length := number.length
  if py_startswith number "4" && (length == 13 || length == 16 || length == 19) then
    "Visa"
  else if (py_startswith number "51" || py_startswith number "52" ||
           py_startswith number "53" || py_startswith number "54" ||
           py_startswith number "55") && length == 16 then
    "MasterCard"
  else if (py_startswith number "34" || py_startswith number "37") && length == 15 then
    "American Express"
  else if (py_startswith number "6011" || py_startswith number "65") && length == 16 then
    "Discover"
  else
    "Unknown"

/-! ## 3. CVV validation (`validate_cvv`, app.py lines 64–73)

The `issuer` argument is `result["issuer"]` of the aggregator, which may be
Python `None`; hence `Option String`. -/

/-- `validate_cvv(cvv, issuer)`: all-digits, and length 4 for American
Express, length 3 for every other issuer value (including `None`). -/
def validate_cvv (cvv : String) (issuer : Option String) : Bool :=
  if !py_isdigit cvv.data then false
  else if issuer == some "American Express" then cvv.length == 4
  else cvv.length == 3

/-! ## 4. Expiry validation (`validate_expiry`, app.py lines 79–101)

The length-5 check plus the index-2 slash check, the `[:2]`/`[3:]` slices
and the `isdigit` guards are rendered by matching on the five characters. -/

/-- `validate_expiry(expiry)` at current date `(now_year, now_month)`. -/
def validate_expiry (now_year now_month : Nat) (expiry : String) : Bool :=
  match expiry.data with
  | [m1, m2, sl, y1, y2] =>
    if sl != '/' then false
    else if !(py_isdigit [m1, m2] && py_isdigit [y1, y2]) then false
    else
      let month := py_int [m1, m2]
      let year := py_int ['2', '0', y1, y2]
      if month < 1 ∨ 12 < month then false
      else if now_year < year then true
      else if year = now_year ∧ now_month ≤ month then true
      else false
  | _ => false

/-! ## 5. Name validation (`validate_name`, app.py lines 107–114) -/

/-- `validate_name(name)`: length between 3 and 40, every character a letter
or a space (the early-return loop of the source is the `all` combinator). -/
def validate_name (name : String) : Bool :=
  if !(3 ≤ name.length ∧ name.length ≤ 40) then false
  else name.data.all (fun c => c.isAlpha || c == ' ')

/-! ## 6. Master validator (`validate_card_input`, app.py lines 120–163) -/

/-- The `result` dict built by `validate_card_input` (the `ValidationReport`
of spec section 3).  `issuer = none` models Python `None`. -/
structure ValidationReport where
  card_number_valid : Bool
  issuer : Option String
  cvv_valid : Bool
  expiry_valid : Bool
  name_valid : Bool
  overall_status : Bool
  errors : List String
deriving Repr, DecidableEq

/-- `validate_card_input(card_number, cvv, expiry, name)` at current date
`(now_year, now_month)`: the sequential mutations of `result` in the source
become a chain of record updates `r0 … r4`. -/
def validate_card_input (now_year now_month : Nat)
    (card_number cvv expiry name : String) : ValidationReport :=
  let r0 : ValidationReport :=
    { card_number_valid := false, issuer := none, cvv_valid := false,
      expiry_valid := false, name_valid := false, overall_status := false,
      errors := [] }
  -- Card number
  let r1 :=
    if dfa_validate_card_number card_number then
      let iss := detect_card_issuer card_number
      if iss == "Unknown" then
        { r0 with card_number_valid := false, issuer := some iss,
                  errors := r0.errors ++ ["Invalid card number format."] }
      else
        { r0 with card_number_valid := true, issuer := some iss }
    else
      { r0 with errors := r0.errors ++ ["Invalid card number format."] }
  -- CVV
  let r2 :=
    if validate_cvv cvv r1.issuer then { r1 with cvv_valid := true }
    else { r1 with errors := r1.errors ++ ["Invalid CVV format."] }
  -- Expiry
  let r3 :=
    if validate_expiry now_year now_month expiry then { r2 with expiry_valid := true }
    else { r2 with errors := r2.errors ++ ["Invalid or expired expiry date."] }
  -- Name
  let r4 :=
    if validate_name name then { r3 with name_valid := true }
    else { r3 with errors := r3.errors ++ ["Invalid cardholder name."] }
  -- Final status
  if r4.card_number_valid && r4.cvv_valid && r4.expiry_valid && r4.name_valid then
    { r4 with overall_status := true }
  else r4

/-! ## Specification-side definitions

These definitions are written from the words of the spec (not from the
source); the claim theorems compare the embedded code against them. -/

/-- Spec section 4.1 / section 8: the regular expression `[0-9]{13,19}`
as a predicate — all ASCII digits and total length between 13 and 19. -/
def matches_digits_13_19 (s : String) : Bool :=
  s.data.all Char.isDigit && decide (13 ≤ s.length ∧ s.length ≤ 19)

/-- Spec section 4.2, Visa rule: starts with "4", length 13, 16 or 19. -/
def visa_rule (n : String) : Prop :=
  py_startswith n "4" = true ∧ (n.length = 13 ∨ n.length = 16 ∨ n.length = 19)

/-- Spec section 4.2, MasterCard rule: starts with "51".."55", length 16. -/
def mastercard_rule (n : String) : Prop :=
  (py_startswith n "51" = true ∨ py_startswith n "52" = true ∨ py_startswith n "53" = true ∨
   py_startswith n "54" = true ∨ py_startswith n "55" = true) ∧ n.length = 16

/-- Spec section 4.2, American Express rule: starts with "34" or "37",
length 15. -/
def amex_rule (n : String) : Prop :=
  (py_startswith n "34" = true ∨ py_startswith n "37" = true) ∧ n.length = 15

/-- Spec section 4.2, Discover rule: starts with "6011" or "65", length 16. -/
def discover_rule (n : String) : Prop :=
  (py_startswith n "6011" = true ∨ py_startswith n "65" = true) ∧ n.length = 16

/-- Spec section 4.3: CVV length required by the issuer (4 for American
Express, else 3 — also for absent or Unknown issuer). -/
def cvv_required_length (issuer : Option String) : Nat :=
  if issuer = some "American Express" then 4 else 3

/-- Spec section 4.4: month value MM parsed from the first two characters. -/
def expiry_month_val (e : String) : Nat := py_int (e.data.take 2)

/-- Spec section 4.4: year value 2000 + YY parsed from the two characters
after the slash. -/
def expiry_year_val (e : String) : Nat := 2000 + py_int (e.data.drop 3)

/-- Spec section 4.4: the lexical MM/YY format — length exactly 5, slash at
position 2, two digit parts, month in 01..12. -/
def expiry_lexical_ok (e : String) : Bool :=
  e.length == 5 && e.data.get? 2 == some '/' &&
  (e.data.take 2).all Char.isDigit && (e.data.drop 3).all Char.isDigit &&
  decide (1 ≤ expiry_month_val e ∧ expiry_month_val e ≤ 12)

/-! ## Extended character model for the expiry checker

CPython `str.isdigit` is true for every character of Unicode numeric type
`Digit` or `Decimal`, while `int()` / `str.isdecimal` accept only numeric
type `Decimal`; U+00B2 SUPERSCRIPT TWO is in the gap.  The fragment below
extends the ASCII model with that one character, faithfully: `'²'.isdigit()`
is `True` in CPython while `int("²")` raises `ValueError`. -/

/-- CPython `str.isdigit` on the extended fragment: ASCII digits together
with U+00B2 (numeric type `Digit`, hence accepted). -/
def py_isdigit_ext_char (c : Char) : Bool := c.isDigit || c == '²'

/-- CPython `str.isdigit` over the extended character fragment. -/
def py_isdigit_ext (s : List Char) : Bool := !s.isEmpty && s.all py_isdigit_ext_char

/-- CPython `int(s)`: succeeds exactly on non-empty strings of decimal
digits (on this fragment, the ASCII digits); on any other input — including
U+00B2, which `isdigit` accepts — it raises `ValueError`, modelled `none`. -/
def py_int_checked (s : List Char) : Option Nat :=
  if !s.isEmpty && s.all Char.isDigit then some (py_int s) else none

/-- `validate_expiry` under the extended character model; `none` is an
uncaught `ValueError` escaping from `int(...)` (app.py lines 90–91), which
no caller catches. -/
def validate_expiry_checked (now_year now_month : Nat) (expiry : String) : Option Bool :=
  match expiry.data with
  | [m1, m2, sl, y1, y2] =>
    if sl != '/' then some false
    else if !(py_isdigit_ext [m1, m2] && py_isdigit_ext [y1, y2]) then some false
    else
      match py_int_checked [m1, m2], py_int_checked ['2', '0', y1, y2] with
      | some month, some year =>
        some (if month < 1 ∨ 12 < month then false
              else if now_year < year then true
              else if year = now_year ∧ now_month ≤ month then true
              else false)
      | _, _ => none
  | _ => some false

/-! ## Helper lemmas -/

/-- Membership in the DFA alphabet is exactly the ASCII digit test. -/
theorem dfa_alphabet_contains (c : Char) : dfa_alphabet.contains c = c.isDigit := by
  rw [Bool.eq_iff_iff]
  simp only [dfa_alphabet, List.contains_eq_any_beq, List.any_cons, List.any_nil,
    Bool.or_eq_true, beq_iff_eq, Bool.or_false]
  constructor
  · rintro (rfl|rfl|rfl|rfl|rfl|rfl|rfl|rfl|rfl|rfl) <;> decide
  · intro hd
    have h1 : 48 ≤ c.toNat ∧ c.toNat ≤ 57 := by
      simp only [Char.isDigit, Bool.and_eq_true, decide_eq_true_eq, Char.le_def] at hd
      exact hd
    have e := Char.ofNat_toNat c
    obtain ⟨ha, hb⟩ := h1
    set n := c.toNat with hn
    interval_cases n <;> rw [← e] <;> simp

/-- The dead state `-1` absorbs every digit. -/
theorem dfa_run_dead (cs : List Char) (h : ∀ c ∈ cs, c.isDigit = true) :
    dfa_run (-1) cs = some (-1) := by
  induction cs with
  | nil => rfl
  | cons c cs ih =>
    have hc : dfa_alphabet.contains c = true := by
      rw [dfa_alphabet_contains]; exact h c (by simp)
    simp only [dfa_run, hc, if_pos]
    have ht : dfa_trans (-1) = -1 := by norm_num [dfa_trans]
    rw [ht]
    exact ih fun c hm => h c (by simp [hm])

/-- On all-digit input the DFA counts: from a live state `q` it reaches
`q + length` if that stays at most 19, else the dead state. -/
theorem dfa_run_all_digits (cs : List Char) (q : Int) (hq0 : 0 ≤ q) (hq : q ≤ 19)
    (h : ∀ c ∈ cs, c.isDigit = true) :
    dfa_run q cs = some (if q + cs.length ≤ 19 then q + cs.length else -1) := by
  induction cs generalizing q with
  | nil =>
    simp only [dfa_run, List.length_nil, Nat.cast_zero, add_zero]
    rw [if_pos hq]
  | cons c cs ih =>
    have hc : dfa_alphabet.contains c = true := by
      rw [dfa_alphabet_contains]; exact h c (by simp)
    have htail : ∀ x ∈ cs, x.isDigit = true := fun x hm => h x (by simp [hm])
    simp only [dfa_run, hc, if_pos, List.length_cons]
    by_cases h19 : q < 19
    · have ht : dfa_trans q = q + 1 := by
        simp only [dfa_trans]; rw [if_pos ⟨hq0, h19⟩]
      rw [ht, ih (q + 1) (by omega) (by omega) htail]
      congr 1
      push_cast
      split_ifs <;> omega
    · have hq19 : q = 19 := by omega
      subst hq19
      have ht : dfa_trans 19 = -1 := by norm_num [dfa_trans]
      rw [ht, dfa_run_dead cs htail, if_neg (by push_cast; omega)]

/-- A symbol outside the alphabet anywhere in the input rejects. -/
theorem dfa_run_not_all (cs : List Char) (h : ¬ ∀ c ∈ cs, c.isDigit = true) (q : Int) :
    dfa_run q cs = none := by
  induction cs generalizing q with
  | nil => exact absurd (by simp) h
  | cons c cs ih =>
    by_cases hc : c.isDigit = true
    · have hmem : dfa_alphabet.contains c = true := by rw [dfa_alphabet_contains]; exact hc
      simp only [dfa_run, hmem, if_pos]
      exact ih (fun hall => h (by simpa [hc] using hall)) _
    · have hmem : dfa_alphabet.contains c = false := by
        rw [dfa_alphabet_contains]; simpa using hc
      simp only [dfa_run, hmem]
      rfl

/-- A `startswith` with a non-empty literal pins down the first character. -/
theorem first_char_of_startswith {n p : String} (h : py_startswith n p = true)
    {c : Char} {cs : List Char} (hp : p.data = c :: cs) : n.data.head? = some c := by
  unfold py_startswith at h
  rw [hp] at h
  cases hn : n.data with
  | nil => rw [hn] at h; simp [List.isPrefixOf] at h
  | cons b t =>
    rw [hn] at h
    simp only [List.isPrefixOf, Bool.and_eq_true, beq_iff_eq] at h
    simp [h.1]

theorem visa_head {n : String} (h : visa_rule n) : n.data.head? = some '4' :=
  first_char_of_startswith h.1 rfl

theorem mastercard_head {n : String} (h : mastercard_rule n) : n.data.head? = some '5' := by
  rcases h.1 with h5 | h5 | h5 | h5 | h5 <;> exact first_char_of_startswith h5 rfl

theorem amex_head {n : String} (h : amex_rule n) : n.data.head? = some '3' := by
  rcases h.1 with h3 | h3 <;> exact first_char_of_startswith h3 rfl

theorem discover_head {n : String} (h : discover_rule n) : n.data.head? = some '6' := by
  rcases h.1 with h6 | h6 <;> exact first_char_of_startswith h6 rfl

/-- The issuer rules of the four branches, as an iff for each label: the
branches are mutually exclusive because each family fixes a distinct first
character, so the first-match chain is a case split. -/
theorem detect_card_issuer_branch_rules (n : String) :
    (detect_card_issuer n = "Visa" ↔ visa_rule n) ∧
    (detect_card_issuer n = "MasterCard" ↔ mastercard_rule n) ∧
    (detect_card_issuer n = "American Express" ↔ amex_rule n) ∧
    (detect_card_issuer n = "Discover" ↔ discover_rule n) ∧
    (detect_card_issuer n = "Unknown" ↔
      ¬(visa_rule n ∨ mastercard_rule n ∨ amex_rule n ∨ discover_rule n)) := by
  unfold detect_card_issuer
  dsimp only
  split_ifs with h1 h2 h3 h4 <;>
    simp only [Bool.and_eq_true, Bool.or_eq_true, beq_iff_eq, or_assoc] at *
  · -- Visa branch
    have hv : visa_rule n := h1
    have hnm : ¬ mastercard_rule n := fun hm => by
      have := mastercard_head hm; rw [visa_head hv] at this; simp at this
    have hna : ¬ amex_rule n := fun hm => by
      have := amex_head hm; rw [visa_head hv] at this; simp at this
    have hnd : ¬ discover_rule n := fun hm => by
      have := discover_head hm; rw [visa_head hv] at this; simp at this
    exact ⟨iff_of_true (by trivial) hv, iff_of_false (by decide) hnm,
      iff_of_false (by decide) hna, iff_of_false (by decide) hnd,
      iff_of_false (by decide) (by simp [hv])⟩
  · -- MasterCard branch
    have hm : mastercard_rule n := h2
    have hnv : ¬ visa_rule n := h1
    have hna : ¬ amex_rule n := fun ha => by
      have := amex_head ha; rw [mastercard_head hm] at this; simp at this
    have hnd : ¬ discover_rule n := fun hd => by
      have := discover_head hd; rw [mastercard_head hm] at this; simp at this
    exact ⟨iff_of_false (by decide) hnv, iff_of_true (by trivial) hm,
      iff_of_false (by decide) hna, iff_of_false (by decide) hnd,
      iff_of_false (by decide) (by simp [hm])⟩
  · -- American Express branch
    have ha : amex_rule n := h3
    have hnv : ¬ visa_rule n := h1
    have hnm : ¬ mastercard_rule n := h2
    have hnd : ¬ discover_rule n := fun hd => by
      have := discover_head hd; rw [amex_head ha] at this; simp at this
    exact ⟨iff_of_false (by decide) hnv, iff_of_false (by decide) hnm,
      iff_of_true (by trivial) ha, iff_of_false (by decide) hnd,
      iff_of_false (by decide) (by simp [ha])⟩
  · -- Discover branch
    have hd : discover_rule n := h4
    exact ⟨iff_of_false (by decide) h1, iff_of_false (by decide) h2,
      iff_of_false (by decide) h3, iff_of_true (by trivial) hd,
      iff_of_false (by decide) (by simp [hd])⟩
  · -- Unknown branch
    exact ⟨iff_of_false (by decide) h1, iff_of_false (by decide) h2,
      iff_of_false (by decide) h3, iff_of_false (by decide) h4,
      iff_of_true (by trivial)
        (by rintro (h | h | h | h) <;> [exact h1 h; exact h2 h; exact h3 h; exact h4 h])⟩

/-- `isdigit` unpacked: non-empty and all ASCII digits. -/
theorem py_isdigit_iff (s : List Char) :
    py_isdigit s = true ↔ s ≠ [] ∧ ∀ c ∈ s, c.isDigit = true := by
  simp [py_isdigit, List.isEmpty_iff, List.all_eq_true]

/-- `int("20" + YY)` equals `2000 + int(YY)` for a two-character `YY`. -/
theorem py_int_20 (y1 y2 : Char) :
    py_int ['2', '0', y1, y2] = 2000 + py_int [y1, y2] := by
  simp only [py_int, List.foldl, py_digit_val]
  have h2 : '2'.toNat = 50 := rfl
  have h0 : '0'.toNat = 48 := rfl
  rw [h2, h0]
  omega

/-- Every code path of `detect_card_issuer` returns one of the five
labels. -/
theorem detect_card_issuer_cases (n : String) :
    detect_card_issuer n = "Visa" ∨ detect_card_issuer n = "MasterCard" ∨
    detect_card_issuer n = "American Express" ∨ detect_card_issuer n = "Discover" ∨
    detect_card_issuer n = "Unknown" := by
  unfold detect_card_issuer
  dsimp only
  split_ifs <;> simp

/-- Closed form of the aggregator: each field of the report as a function
of the five checker results, and the error list as the concatenation of the
four per-check messages in source order. -/
theorem validate_card_input_eq (nowY nowM : Nat) (cn cv ex nm : String) :
    validate_card_input nowY nowM cn cv ex nm =
      { card_number_valid := dfa_validate_card_number cn && !(detect_card_issuer cn == "Unknown"),
        issuer := if dfa_validate_card_number cn then some (detect_card_issuer cn) else none,
        cvv_valid := validate_cvv cv
          (if dfa_validate_card_number cn then some (detect_card_issuer cn) else none),
        expiry_valid := validate_expiry nowY nowM ex,
        name_valid := validate_name nm,
        overall_status :=
          (dfa_validate_card_number cn && !(detect_card_issuer cn == "Unknown")) &&
          validate_cvv cv
            (if dfa_validate_card_number cn then some (detect_card_issuer cn) else none) &&
          validate_expiry nowY nowM ex && validate_name nm,
        errors :=
          (if dfa_validate_card_number cn && !(detect_card_issuer cn == "Unknown") then []
           else ["Invalid card number format."]) ++
          (if validate_cvv cv
              (if dfa_validate_card_number cn then some (detect_card_issuer cn) else none) then []
           else ["Invalid CVV format."]) ++
          (if validate_expiry nowY nowM ex then [] else ["Invalid or expired expiry date."]) ++
          (if validate_name nm then [] else ["Invalid cardholder name."]) } := by
  unfold validate_card_input
  by_cases h1 : dfa_validate_card_number cn = true <;>
  by_cases h2 : (detect_card_issuer cn == "Unknown") = true <;>
  by_cases h4 : validate_expiry nowY nowM ex = true <;>
  by_cases h5 : validate_name nm = true <;>
  by_cases h3s : validate_cvv cv (some (detect_card_issuer cn)) = true <;>
  by_cases h3n : validate_cvv cv none = true <;>
  simp [h1, h2, h3s, h3n, h4, h5]

/-! ## Claim theorems -/

/-- Claim C2: `dfa_validate_card_number` accepts exactly the strings
matching the regular expression `[0-9]{13,19}` — every character an ASCII
digit and length between 13 and 19 inclusive; in particular the empty
string and any string with a non-digit character are rejected. -/
theorem dfa_validate_card_number_eq_regex (s : String) :
    dfa_validate_card_number s = matches_digits_13_19 s := by
  unfold dfa_validate_card_number matches_digits_13_19
  by_cases h : ∀ c ∈ s.data, c.isDigit = true
  · rw [dfa_run_all_digits s.data 0 (by omega) (by omega) h]
    have hall : s.data.all Char.isDigit = true := List.all_eq_true.mpr h
    have hlen : s.length = s.data.length := rfl
    simp only [hall, Bool.true_and, zero_add, hlen]
    rw [Bool.eq_iff_iff]
    by_cases h19 : s.data.length ≤ 19
    · rw [if_pos (by omega)]
      simp only [dfa_finals, List.contains_eq_any_beq, List.any_cons, List.any_nil,
        Bool.or_eq_true, beq_iff_eq, Bool.or_false, decide_eq_true_eq]
      omega
    · rw [if_neg (by omega)]
      simp only [dfa_finals, List.contains_eq_any_beq, List.any_cons, List.any_nil,
        Bool.or_eq_true, beq_iff_eq, Bool.or_false, decide_eq_true_eq]
      omega
  · rw [dfa_run_not_all s.data h]
    have hfalse : s.data.all Char.isDigit = false := by
      rw [← Bool.not_eq_true]
      simpa [List.all_eq_true] using h
    simp [hfalse]

/-- Claim C3: `detect_card_issuer` returns each issuer label exactly under
the prefix-and-length rule for that issuer (so a prefix match with the
wrong length falls through to Unknown), and the five sample numbers of spec
section 8 classify as listed. -/
theorem detect_card_issuer_classification :
    (∀ n : String,
      (detect_card_issuer n = "Visa" ↔ visa_rule n) ∧
      (detect_card_issuer n = "MasterCard" ↔ mastercard_rule n) ∧
      (detect_card_issuer n = "American Express" ↔ amex_rule n) ∧
      (detect_card_issuer n = "Discover" ↔ discover_rule n) ∧
      (detect_card_issuer n = "Unknown" ↔
        ¬(visa_rule n ∨ mastercard_rule n ∨ amex_rule n ∨ discover_rule n))) ∧
    detect_card_issuer "4111111111111111" = "Visa" ∧
    detect_card_issuer "5500000000000004" = "MasterCard" ∧
    detect_card_issuer "340000000000009" = "American Express" ∧
    detect_card_issuer "6011000000000004" = "Discover" ∧
    detect_card_issuer "1234567890123" = "Unknown" :=
  ⟨detect_card_issuer_branch_rules, by decide, by decide, by decide, by decide, by decide⟩

/-- The ASCII model of `validate_expiry` equals the spec formula: false
when the input is not in the lexical MM/YY form, else true iff the parsed
(2000 + YY, MM) is not strictly before the current (year, month).  This is
a helper about the ASCII model only; the claim C4 theorem below states the
result for the faithful extended model, under an ASCII hypothesis. -/
theorem validate_expiry_ascii_model_eq_spec (nowY nowM : Nat) (e : String) :
    validate_expiry nowY nowM e =
      (expiry_lexical_ok e &&
        (decide (nowY < expiry_year_val e) ||
         (expiry_year_val e == nowY && decide (nowM ≤ expiry_month_val e)))) := by
  unfold validate_expiry expiry_lexical_ok expiry_month_val expiry_year_val
  obtain ⟨d⟩ := e
  rcases d with _ | ⟨c1, _ | ⟨c2, _ | ⟨c3, _ | ⟨c4, _ | ⟨c5, _ | ⟨c6, rest⟩⟩⟩⟩⟩⟩ <;>
    simp only [String.length, List.length_nil, List.length_cons]
  · simp
  · simp
  · simp
  · simp
  · simp
  case mk.cons.cons.cons.cons.cons.cons =>
    have h5 : (0 + 1 + 1 + 1 + 1 + 1 + 1 + rest.length == 5) = false := by
      rw [beq_eq_false_iff_ne]; omega
    simp [h5]
  case mk.cons.cons.cons.cons.cons.nil =>
    have h55 : (0 + 1 + 1 + 1 + 1 + 1 == 5) = true := rfl
    have ht : List.take 2 [c1, c2, c3, c4, c5] = [c1, c2] := rfl
    have hdr : List.drop 3 [c1, c2, c3, c4, c5] = [c4, c5] := rfl
    have hg : [c1, c2, c3, c4, c5].get? 2 = some c3 := rfl
    rw [h55, ht, hdr, hg]
    simp only [py_int_20, Bool.true_and]
    have e1 : py_isdigit [c1, c2] = [c1, c2].all Char.isDigit := rfl
    have e2 : py_isdigit [c4, c5] = [c4, c5].all Char.isDigit := rfl
    by_cases hc3 : c3 = '/'
    · subst hc3
      have hsl : ('/' != '/') = false := rfl
      rw [hsl]
      simp only [Bool.false_eq_true, if_false, e1, e2]
      have hgb : (some '/' == some ('/' : Char)) = true := rfl
      rw [hgb]
      simp only [Bool.true_and]
      by_cases hdig : ([c1, c2].all Char.isDigit && [c4, c5].all Char.isDigit) = true
      · rw [hdig]
        simp only [Bool.not_true, Bool.false_eq_true, if_false]
        simp only [Bool.true_and]
        by_cases hm : py_int [c1, c2] < 1 ∨ 12 < py_int [c1, c2]
        · rw [if_pos hm]
          have hdec : decide (1 ≤ py_int [c1, c2] ∧ py_int [c1, c2] ≤ 12) = false := by
            rw [decide_eq_false_iff_not]
            rcases hm with hm | hm <;> omega
          rw [hdec]
          simp
        · rw [if_neg hm]
          push_neg at hm
          have hdec : decide (1 ≤ py_int [c1, c2] ∧ py_int [c1, c2] ≤ 12) = true := by
            rw [decide_eq_true_eq]
            exact ⟨hm.1, hm.2⟩
          rw [hdec]
          simp only [Bool.true_and]
          by_cases hy : nowY < 2000 + py_int [c4, c5]
          · rw [if_pos hy]
            simp [hy]
          · rw [if_neg hy]
            by_cases hye : 2000 + py_int [c4, c5] = nowY ∧ nowM ≤ py_int [c1, c2]
            · rw [if_pos hye]
              have hb : (2000 + py_int [c4, c5] == nowY) = true := by
                rw [beq_iff_eq]; exact hye.1
              simp [hb, hye.2]
            · rw [if_neg hye]
              rw [Bool.eq_iff_iff]
              simp only [Bool.false_eq_true, false_iff, Bool.or_eq_true, decide_eq_true_eq,
                Bool.and_eq_true, beq_iff_eq]
              rintro (h | ⟨h1, h2⟩)
              · exact hy h
              · exact hye ⟨h1, h2⟩
      · have hdig2 : ([c1, c2].all Char.isDigit && [c4, c5].all Char.isDigit) = false := by
          simpa using hdig
        rw [hdig2]
        simp only [Bool.not_false, if_true]
        rcases Bool.and_eq_false_iff.mp hdig2 with h | h <;> simp [h]
    · have hsl : (c3 != '/') = true := by
        rw [bne_iff_ne]; exact hc3
      rw [hsl]
      have hgb : (some c3 == some ('/' : Char)) = false := by
        rw [beq_eq_false_iff_ne]; simpa using hc3
      rw [hgb]
      simp

/-- An ASCII character is not U+00B2. -/
theorem ascii_not_superscript {c : Char} (h : c.toNat ≤ 127) : (c == '²') = false := by
  rw [beq_eq_false_iff_ne]
  intro he
  subst he
  exact absurd h (by decide)

/-- On ASCII characters the extended `isdigit` agrees with the ASCII one. -/
theorem ascii_isdigit_ext {c : Char} (h : c.toNat ≤ 127) :
    py_isdigit_ext_char c = c.isDigit := by
  unfold py_isdigit_ext_char
  rw [ascii_not_superscript h, Bool.or_false]

/-- On ASCII input the extended model of `validate_expiry` raises no
exception and returns exactly the value of the ASCII model: the `isdigit`
guards coincide and both `int(...)` calls succeed. -/
theorem validate_expiry_checked_ascii (nowY nowM : Nat) (e : String)
    (h : ∀ c ∈ e.data, c.toNat ≤ 127) :
    validate_expiry_checked nowY nowM e = some (validate_expiry nowY nowM e) := by
  unfold validate_expiry_checked validate_expiry
  obtain ⟨d⟩ := e
  rcases d with _ | ⟨c1, _ | ⟨c2, _ | ⟨c3, _ | ⟨c4, _ | ⟨c5, _ | ⟨c6, rest⟩⟩⟩⟩⟩⟩
  · rfl
  · rfl
  · rfl
  · rfl
  · rfl
  case mk.cons.cons.cons.cons.cons.cons => rfl
  case mk.cons.cons.cons.cons.cons.nil =>
    have a1 : c1.toNat ≤ 127 := h c1 (by simp)
    have a2 : c2.toNat ≤ 127 := h c2 (by simp)
    have a4 : c4.toNat ≤ 127 := h c4 (by simp)
    have a5 : c5.toNat ≤ 127 := h c5 (by simp)
    have e1 : py_isdigit_ext [c1, c2] = py_isdigit [c1, c2] := by
      simp [py_isdigit_ext, py_isdigit, ascii_isdigit_ext a1, ascii_isdigit_ext a2]
    have e2 : py_isdigit_ext [c4, c5] = py_isdigit [c4, c5] := by
      simp [py_isdigit_ext, py_isdigit, ascii_isdigit_ext a4, ascii_isdigit_ext a5]
    dsimp only
    rw [e1, e2]
    by_cases hsl : (c3 != '/') = true
    · rw [if_pos hsl, if_pos hsl]
    · rw [if_neg hsl, if_neg hsl]
      by_cases hdig : (py_isdigit [c1, c2] && py_isdigit [c4, c5]) = true
      · have hne : (!(py_isdigit [c1, c2] && py_isdigit [c4, c5])) = false := by simp [hdig]
        rw [hne]
        simp only [Bool.false_eq_true, if_false]
        rw [Bool.and_eq_true] at hdig
        obtain ⟨hd1, hd2⟩ := hdig
        have hds := (py_isdigit_iff [c4, c5]).mp hd2
        have hc4 : c4.isDigit = true := hds.2 c4 (by simp)
        have hc5 : c5.isDigit = true := hds.2 c5 (by simp)
        have hd1' := hd1
        unfold py_isdigit at hd1'
        have hi1 : py_int_checked [c1, c2] = some (py_int [c1, c2]) := by
          unfold py_int_checked
          rw [if_pos hd1']
        have t2 : ('2' : Char).isDigit = true := by decide
        have t0 : ('0' : Char).isDigit = true := by decide
        have hcond : (!(['2', '0', c4, c5].isEmpty) && ['2', '0', c4, c5].all Char.isDigit)
            = true := by
          simp [t2, t0, hc4, hc5]
        have hi2 : py_int_checked ['2', '0', c4, c5] = some (py_int ['2', '0', c4, c5]) := by
          unfold py_int_checked
          rw [if_pos hcond]
        rw [hi1, hi2]
      · have hb : (py_isdigit [c1, c2] && py_isdigit [c4, c5]) = false :=
          Bool.eq_false_iff.mpr hdig
        rw [hb]
        simp

/-- Claim C4 counterexample: at the non-lexical input "12/²²" the claim
says `validate_expiry` returns false, but in the faithful model the
function returns no boolean at all — the `isdigit` guard passes (U+00B2
has Unicode numeric type `Digit`) and `int("20²²")` raises an uncaught
`ValueError` (app.py line 91). -/
theorem validate_expiry_unicode_counterexample :
    validate_expiry_checked 2024 1 "12/²²" ≠ some false ∧
    validate_expiry_checked 2024 1 "12/²²" ≠ some true :=
  ⟨by decide, by decide⟩

/-- Claim C4 (amended): for every string of ASCII characters and every
fixed current date, `validate_expiry` returns — raising nothing — false if
the input is not in the lexical MM/YY form (length 5, slash at position 2,
two digit parts, month in 01..12), and otherwise true iff the parsed
(2000 + YY, MM) is not strictly before the current (year, month).  On
non-ASCII input the function can instead raise `ValueError` (see C7). -/
theorem validate_expiry_spec_on_ascii (nowY nowM : Nat) (e : String)
    (h : ∀ c ∈ e.data, c.toNat ≤ 127) :
    validate_expiry_checked nowY nowM e =
      some (expiry_lexical_ok e &&
        (decide (nowY < expiry_year_val e) ||
         (expiry_year_val e == nowY && decide (nowM ≤ expiry_month_val e)))) := by
  rw [validate_expiry_checked_ascii nowY nowM e h, validate_expiry_ascii_model_eq_spec]

/-- Witness for the amended C4 at the ASCII input "12/25" and current date
2024-01. -/
theorem validate_expiry_spec_on_ascii_witness :
    (∀ c ∈ ("12/25" : String).data, c.toNat ≤ 127) ∧
    validate_expiry_checked 2024 1 "12/25" =
      some (expiry_lexical_ok "12/25" &&
        (decide ((2024 : Nat) < expiry_year_val "12/25") ||
         (expiry_year_val "12/25" == (2024 : Nat) &&
          decide ((1 : Nat) ≤ expiry_month_val "12/25")))) :=
  ⟨by decide, validate_expiry_spec_on_ascii 2024 1 "12/25" (by decide)⟩

/-- Claim C5: `validate_cvv` accepts exactly the all-digit strings whose
length is the issuer-required one — 4 for American Express, 3 for every
other issuer value including absent (`none`) and Unknown. -/
theorem validate_cvv_iff_digits_and_length (c : String) (i : Option String) :
    validate_cvv c i = true ↔
      (∀ ch ∈ c.data, ch.isDigit = true) ∧ c.length = cvv_required_length i := by
  have hlen : c.length = c.data.length := rfl
  unfold validate_cvv cvv_required_length
  by_cases hd : py_isdigit c.data = true
  · have hds := (py_isdigit_iff _).mp hd
    simp only [hd, Bool.not_true, Bool.false_eq_true, if_false, hds.2, true_and]
    by_cases hi : i = some "American Express"
    · have hb : (i == some "American Express") = true := by simp [hi]
      simp only [hb, if_true, beq_iff_eq, hi, if_pos]
      exact ⟨fun h => ⟨hds.2, h⟩, fun h => h.2⟩
    · have hb : (i == some "American Express") = false := by simp [hi]
      simp only [hb, Bool.false_eq_true, if_false, beq_iff_eq, if_neg hi]
      exact ⟨fun h => ⟨hds.2, h⟩, fun h => h.2⟩
  · have hb : py_isdigit c.data = false := by simpa using hd
    simp only [hb, Bool.not_false, if_true, Bool.false_eq_true, false_iff]
    rintro ⟨hall, hl⟩
    rw [py_isdigit_iff] at hd
    have hempty : c.data = [] := by
      by_contra hne
      exact hd ⟨hne, hall⟩
    rw [hlen, hempty] at hl
    by_cases hi : i = some "American Express" <;> simp [hi] at hl

/-- Claim C6: `validate_name` accepts exactly the strings of length 3 to 40
whose characters are all letters or spaces — no trimming, so leading,
trailing and consecutive spaces are allowed. -/
theorem validate_name_iff_length_and_charset (s : String) :
    validate_name s = true ↔
      (3 ≤ s.length ∧ s.length ≤ 40) ∧ ∀ c ∈ s.data, c.isAlpha = true ∨ c = ' ' := by
  unfold validate_name
  by_cases hl : 3 ≤ s.length ∧ s.length ≤ 40 <;> simp_all [List.all_eq_true]

/-- Claim C7: the checkers are claimed never to raise, but under the full
CPython character semantics `validate_expiry` raises an uncaught
`ValueError` on the input "12/²²": the year part passes the `isdigit`
guard (U+00B2 has Unicode numeric type `Digit`) and then `int("20²²")`
raises, because `int` accepts only numeric type `Decimal`. -/
theorem validate_expiry_checked_value_error :
    validate_expiry_checked 2024 1 "12/²²" = none := by decide

/-- Claim C1: in every report, `overall_status` is the conjunction of the
four per-field booleans, and `errors` holds exactly one message per failing
check, in the fixed order number, cvv, expiry, name. -/
theorem validate_card_input_report_invariant (nowY nowM : Nat) (cn cv ex nm : String) :
    ((validate_card_input nowY nowM cn cv ex nm).overall_status =
      ((validate_card_input nowY nowM cn cv ex nm).card_number_valid &&
       (validate_card_input nowY nowM cn cv ex nm).cvv_valid &&
       (validate_card_input nowY nowM cn cv ex nm).expiry_valid &&
       (validate_card_input nowY nowM cn cv ex nm).name_valid)) ∧
    (validate_card_input nowY nowM cn cv ex nm).errors =
      (if (validate_card_input nowY nowM cn cv ex nm).card_number_valid then []
       else ["Invalid card number format."]) ++
      (if (validate_card_input nowY nowM cn cv ex nm).cvv_valid then []
       else ["Invalid CVV format."]) ++
      (if (validate_card_input nowY nowM cn cv ex nm).expiry_valid then []
       else ["Invalid or expired expiry date."]) ++
      (if (validate_card_input nowY nowM cn cv ex nm).name_valid then []
       else ["Invalid cardholder name."]) := by
  rw [validate_card_input_eq]
  exact ⟨rfl, rfl⟩

/-- Claim C8: when `card_number_valid` is true the issuer is one of the
four known networks (never `none`, never "Unknown"); the issuer is `none`
exactly when the format check fails; and when the format check passes but
the issuer is "Unknown", `card_number_valid` is flipped back to false and
the message "Invalid card number format." is recorded. -/
theorem issuer_resolution_invariant (nowY nowM : Nat) (cn cv ex nm : String) :
    ((validate_card_input nowY nowM cn cv ex nm).card_number_valid = true →
      (validate_card_input nowY nowM cn cv ex nm).issuer ∈
        [some "Visa", some "MasterCard", some "American Express", some "Discover"]) ∧
    ((validate_card_input nowY nowM cn cv ex nm).issuer = none ↔
      dfa_validate_card_number cn = false) ∧
    (dfa_validate_card_number cn = true → detect_card_issuer cn = "Unknown" →
      (validate_card_input nowY nowM cn cv ex nm).card_number_valid = false ∧
      "Invalid card number format." ∈ (validate_card_input nowY nowM cn cv ex nm).errors) := by
  rw [validate_card_input_eq]
  dsimp only
  refine ⟨?_, ?_, ?_⟩
  · intro h
    rw [Bool.and_eq_true] at h
    obtain ⟨hdfa, hunk⟩ := h
    rw [if_pos hdfa]
    have hne : detect_card_issuer cn ≠ "Unknown" := by
      intro he
      rw [he] at hunk
      simp at hunk
    rcases detect_card_issuer_cases cn with h | h | h | h | h
    · simp [h]
    · simp [h]
    · simp [h]
    · simp [h]
    · exact absurd h hne
  · by_cases hdfa : dfa_validate_card_number cn = true
    · rw [if_pos hdfa]
      simp [hdfa]
    · rw [if_neg hdfa]
      simp [Bool.eq_false_iff, hdfa]
  · intro hdfa hunk
    constructor
    · rw [hdfa, hunk]
      simp
    · have hcnv : (dfa_validate_card_number cn && !(detect_card_issuer cn == "Unknown")) = false := by
        rw [hdfa, hunk]; simp
      rw [hcnv]
      simp

/-- Witness for C8: at the all-valid Visa sample the issuer is a known
network, and at the structurally valid but unrecognized number
"9999999999999" the flip-to-false branch fires. -/
theorem issuer_resolution_invariant_witness :
    (validate_card_input 2024 1 "4111111111111111" "123" "12/25" "John Doe").issuer ∈
      [some "Visa", some "MasterCard", some "American Express", some "Discover"] ∧
    ((validate_card_input 2024 1 "9999999999999" "123" "12/25" "John Doe").card_number_valid
        = false ∧
     "Invalid card number format." ∈
       (validate_card_input 2024 1 "9999999999999" "123" "12/25" "John Doe").errors) :=
  ⟨(issuer_resolution_invariant 2024 1 "4111111111111111" "123" "12/25" "John Doe").1
      (by decide),
   (issuer_resolution_invariant 2024 1 "9999999999999" "123" "12/25" "John Doe").2.2
      (by decide) (by decide)⟩

/-- Claim C9: at current date 2024-01, the sample input
("4111111111111111", "123", "12/25", "John Doe") yields overall status
true, issuer Visa and no errors. -/
theorem validate_sample_visa_report :
    (validate_card_input 2024 1 "4111111111111111" "123" "12/25" "John Doe").overall_status
        = true ∧
    (validate_card_input 2024 1 "4111111111111111" "123" "12/25" "John Doe").issuer
        = some "Visa" ∧
    (validate_card_input 2024 1 "4111111111111111" "123" "12/25" "John Doe").errors = [] := by
  decide

/-- Claim C10: at every current date, the input ("9999999999999", "123",
"12/25", "John Doe") yields a report with `card_number_valid` flipped to
false per the resolution of spec section 4.6, issuer "Unknown", a
non-empty error list and overall status false. -/
theorem validate_sample_unknown_number_report (nowY nowM : Nat) :
    (validate_card_input nowY nowM "9999999999999" "123" "12/25" "John Doe").card_number_valid
        = false ∧
    (validate_card_input nowY nowM "9999999999999" "123" "12/25" "John Doe").issuer
        = some "Unknown" ∧
    (validate_card_input nowY nowM "9999999999999" "123" "12/25" "John Doe").errors ≠ [] ∧
    (validate_card_input nowY nowM "9999999999999" "123" "12/25" "John Doe").overall_status
        = false := by
  have h1 : dfa_validate_card_number "9999999999999" = true := by decide
  have h2 : detect_card_issuer "9999999999999" = "Unknown" := by decide
  rw [validate_card_input_eq]
  simp [h1, h2]

end CardValidation
